import Mathlib

/-!
Shallow embedding of the Account & Likes Persistence Service of
`src/app.py` (the voofo backend): the two ORM models (`User`,
`LikedSong`), the auth helpers, and the request handlers `register`,
`login`, `toggle_like`, `get_liked`, `trending`, `search`.

The relational store is modelled as lists of rows with the
system-assigned id counters made explicit.  bcrypt is an external
library; its two primitives are passed in as an abstract `Bcrypt`
record (`hashpw password salt`, `checkpw password hashed`), and the
salt produced by `bcrypt.gensalt()` is an explicit argument.  JSON
request bodies are dictionaries, so each body field arrives as an
`Option`: `none` models a missing key.  A Python `dict.get` that finds
nothing is falsy, and a `dict[...]` access on a missing key raises
`KeyError`, which FastAPI surfaces as a generic HTTP 500 server error;
both are modelled explicitly below.
-/

namespace Voofo

/-- A row of the `users` table (`class User` in `src/app.py`):
system-assigned integer id, username, and the stored password string
(a bcrypt hash). -/
structure User where
  id : Int
  username : String
  password : String
deriving Repr, DecidableEq

/-- A row of the `liked_songs` table (`class LikedSong` in
`src/app.py`). -/
structure LikedSong where
  id : Int
  user_id : Int
  song_id : String
  title : String
  artist : String
  thumbnail : String
deriving Repr, DecidableEq

/-- The relational store: the two tables plus the primary-key
sequences that assign fresh ids. -/
structure DB where
  users : List User
  likes : List LikedSong
  nextUserId : Int
  nextLikeId : Int
deriving Repr, DecidableEq

/-- An empty store, as created by `Base.metadata.create_all`. -/
def emptyDB : DB := ⟨[], [], 1, 1⟩

/-- The two bcrypt primitives used by `hash_password` /
`verify_password`, kept abstract: `hashpw password salt` and
`checkpw password hashed`. -/
structure Bcrypt where
  hashpw : String → String → String
  checkpw : String → String → Bool

/-- `hash_password` of `src/app.py`, with the salt from
`bcrypt.gensalt()` made an explicit argument. -/
def hash_password (bc : Bcrypt) (password salt : String) : String :=
  bc.hashpw password salt

/-- `verify_password` of `src/app.py`. -/
def verify_password (bc : Bcrypt) (password hashed : String) : Bool :=
  bc.checkpw password hashed

/-- How a handler failure surfaces over HTTP: an
`HTTPException(400, msg)`, an `HTTPException(401, msg)`, or an
uncaught Python exception (e.g. `KeyError`), which FastAPI converts
to a generic 500 server error. -/
inductive ApiErr where
  | badRequest (msg : String)
  | unauthorized (msg : String)
  | serverFault (msg : String)
deriving Repr, DecidableEq

/-- The HTTP status code each failure surfaces as. -/
def ApiErr.statusCode : ApiErr → Nat
  | .badRequest _ => 400
  | .unauthorized _ => 401
  | .serverFault _ => 500

/-- Python truthiness test `not data.get(key)` for a string field:
true when the key is missing or the value is the empty string. -/
def falsy : Option String → Bool
  | none => true
  | some s => s == ""

/-- The `register` handler (`src/app.py` lines 161-170).  Body fields
arrive as `Option String`; the handler checks both for truthiness,
rejects a duplicate username, and otherwise inserts one `User` row
whose stored password is the salted bcrypt hash. -/
def register (bc : Bcrypt) (salt : String)
    (username? password? : Option String) (db : DB) : Except ApiErr DB :=
  if falsy username? || falsy password? then
    .error (.badRequest "Username and password required")
  else
    let username := username?.getD ""
    let password := password?.getD ""
    if db.users.any (fun u => u.username == username) then
      .error (.badRequest "Username already exists")
    else
      .ok { db with
              users := db.users ++
                [⟨db.nextUserId, username, hash_password bc password salt⟩],
              nextUserId := db.nextUserId + 1 }

/-- The `login` handler (`src/app.py` lines 172-177).  `data['username']`
raises `KeyError` when missing; the user lookup takes the first row
with that username; `not user or not verify_password(...)`
short-circuits, so `data['password']` is only read when a user was
found; both failure branches raise the same 401. -/
def login (bc : Bcrypt) (username? password? : Option String) (db : DB) :
    Except ApiErr (Int × String) :=
  match username? with
  | none => .error (.serverFault "KeyError: username")
  | some username =>
    match db.users.find? (fun u => u.username == username) with
    | none => .error (.unauthorized "Invalid credentials")
    | some user =>
      match password? with
      | none => .error (.serverFault "KeyError: password")
      | some password =>
        if verify_password bc password user.password then
          .ok (user.id, user.username)
        else
          .error (.unauthorized "Invalid credentials")

/-- The filter `LikedSong.user_id == user_id, LikedSong.song_id == song_id`
used by the toggle query. -/
def likeMatches (uid : Int) (sid : String) (l : LikedSong) : Bool :=
  l.user_id == uid && l.song_id == sid

/-- The core of the `toggle_like` handler (`src/app.py` lines
180-199), with all body fields present.  The query's `.first()`
returns the first matching row; `db.delete(existing)` removes exactly
that row; otherwise one new `LikedSong` row holding the supplied
metadata snapshot is inserted. -/
def toggle_like (uid : Int) (sid title artist thumbnail : String)
    (db : DB) : String × DB :=
  match db.likes.find? (likeMatches uid sid) with
  | some _ =>
    ("unliked", { db with likes := db.likes.eraseP (likeMatches uid sid) })
  | none =>
    ("liked", { db with
                  likes := db.likes ++
                    [⟨db.nextLikeId, uid, sid, title, artist, thumbnail⟩],
                  nextLikeId := db.nextLikeId + 1 })

/-- The `toggle_like` handler seen from the HTTP boundary: every body
field is read with `data[...]`, so a missing `user_id` or `song_id`
raises `KeyError` before the query runs, and on the insert path a
missing `title`, `artist` or `thumbnail` raises `KeyError` as well. -/
def toggle_like_api (user_id? : Option Int)
    (song_id? title? artist? thumbnail? : Option String) (db : DB) :
    Except ApiErr (String × DB) :=
  match user_id?, song_id? with
  | some uid, some sid =>
    match db.likes.find? (likeMatches uid sid) with
    | some _ =>
      .ok ("unliked", { db with likes := db.likes.eraseP (likeMatches uid sid) })
    | none =>
      match title?, artist?, thumbnail? with
      | some t, some a, some th =>
        .ok ("liked", { db with
                          likes := db.likes ++
                            [⟨db.nextLikeId, uid, sid, t, a, th⟩],
                          nextLikeId := db.nextLikeId + 1 })
      | _, _, _ => .error (.serverFault "KeyError: missing like field")
  | _, _ => .error (.serverFault "KeyError: missing like field")

/-- One entry of the JSON track payload shared by `get_liked`,
`trending` and `search`: id, title, artist, thumbnail. -/
structure Track where
  id : String
  title : String
  artist : String
  thumbnail : String
deriving Repr, DecidableEq

/-- The `get_liked` handler (`src/app.py` lines 201-204): all
`LikedSong` rows for the account, projected to the payload shape. -/
def get_liked (uid : Int) (db : DB) : List Track :=
  (db.likes.filter (fun l => l.user_id == uid)).map
    (fun l => ⟨l.song_id, l.title, l.artist, l.thumbnail⟩)

/-- One artist entry of a raw catalog record (`{'name': ...}`). -/
structure Artist where
  name : String
deriving Repr, DecidableEq

/-- One thumbnail entry of a raw catalog record (`{'url': ...}`). -/
structure Thumb where
  url : String
deriving Repr, DecidableEq

/-- A raw track record as returned by the YTMusic client
(`get_charts(...)['songs']['items']` entries or `search` results):
the four fields the handlers read. -/
structure RawSong where
  videoId : String
  title : String
  artists : List Artist
  thumbnails : List Thumb
deriving Repr, DecidableEq

/-- The per-item extraction done inside the comprehension of
`trending`/`search`: `s['videoId']`, `s['title']`,
`s['artists'][0]['name']`, `s['thumbnails'][-1]['url']`.  An empty
`artists` or `thumbnails` list makes the subscript raise, which the
surrounding `try` turns into a failure of the whole response. -/
def extractSong (s : RawSong) : Option Track :=
  match s.artists.head?, s.thumbnails.getLast? with
  | some a, some th => some ⟨s.videoId, s.title, a.name, th.url⟩
  | _, _ => none

/-- The whole comprehension: one raising item poisons the entire
response (the exception propagates to the `except` clause). -/
def extractAll : List RawSong → Option (List Track)
  | [] => some []
  | s :: rest =>
    match extractSong s, extractAll rest with
    | some t, some ts => some (t :: ts)
    | _, _ => none

/-- What a trending/search endpoint hands back: a JSON list of tracks
(possibly empty), or the inline service-unavailable payload returned
when the YTMusic client is `None`.  The `try`/`except` around the
catalog call catches every exception, so no constructor for a
propagated server fault exists. -/
inductive CatalogResult where
  | tracks (l : List Track)
  | unavailable (payload : String)
deriving Repr, DecidableEq

/-- The outcome of one call into the YTMusic client, as seen by a
handler: `none` models `yt = None` (initialization failed);
`some (.error e)` models the call (or the subscripting of its result)
raising; `some (.ok songs)` models a successful call yielding a list
of raw records. -/
def YtOutcome := Option (Except String (List RawSong))

/-- The `trending` handler (`src/app.py` lines 207-216): unavailable
client → inline error payload; raising call → `[]`; otherwise the
first 15 chart entries, extracted. -/
def trending (yt : YtOutcome) : CatalogResult :=
  match yt with
  | none => .unavailable "YouTube Music service unavailable"
  | some (.error _) => .tracks []
  | some (.ok songs) =>
    match extractAll (songs.take 15) with
    | some ts => .tracks ts
    | none => .tracks []

/-- The `search` handler (`src/app.py` lines 218-227): same shape as
`trending` but without the truncation to 15. -/
def search (yt : YtOutcome) : CatalogResult :=
  match yt with
  | none => .unavailable "YouTube Music service unavailable"
  | some (.error _) => .tracks []
  | some (.ok results) =>
    match extractAll results with
    | some ts => .tracks ts
    | none => .tracks []

/-- One sequential call against the persistence service, with every
request-body field optional as on the wire. -/
inductive Op where
  | reg (salt : String) (username? password? : Option String)
  | auth (username? password? : Option String)
  | toggle (user_id? : Option Int) (song_id? title? artist? thumbnail? : Option String)
  | list (user_id : Int)

/-- Applying one operation to the store.  `login` and `get_liked` are
read-only; a failing `register` or `toggle_like` raises before any
write, leaving the store unchanged. -/
def step (bc : Bcrypt) (db : DB) : Op → DB
  | .reg salt u? p? =>
    match register bc salt u? p? db with
    | .ok db' => db'
    | .error _ => db
  | .auth _ _ => db
  | .toggle uid? sid? t? a? th? =>
    match toggle_like_api uid? sid? t? a? th? db with
    | .ok (_, db') => db'
    | .error _ => db
  | .list _ => db

/-- Running a sequential (non-interleaved) trace of operations. -/
def run (bc : Bcrypt) (ops : List Op) (db : DB) : DB :=
  ops.foldl (step bc) db

/-- The number of `LikedSong` rows matching a given
(account, track) pair. -/
def countMatch (uid : Int) (sid : String) (db : DB) : Nat :=
  (db.likes.filter (likeMatches uid sid)).length

/-- The soft invariant of §3: at most one `LikedSong` row per
(account_id, track_id) pair. -/
def atMostOnePair (db : DB) : Prop :=
  ∀ uid sid, countMatch uid sid db ≤ 1

/-- Iterating the core toggle n times on one fixed
(account, track, metadata) tuple. -/
def toggleN (uid : Int) (sid title artist thumbnail : String) :
    Nat → DB → DB
  | 0, db => db
  | n + 1, db =>
    (toggle_like uid sid title artist thumbnail
      (toggleN uid sid title artist thumbnail n db)).2

/-- A concrete stand-in for the bcrypt primitives, used to evaluate
the theorems on closed inputs: the hash is salt ++ ":" ++ password and
verification recomputes that shape for the fixed salt "sal". -/
def demoBcrypt : Bcrypt :=
  ⟨fun p s => s ++ ":" ++ p, fun p h => h == "sal:" ++ p⟩

/-- A one-user store as produced by registering "alice"/"pw1" with
salt "sal" under `demoBcrypt`, used to evaluate the theorems on
closed inputs. -/
def aliceDB : DB :=
  { users := [⟨1, "alice", "sal:pw1"⟩], likes := [],
    nextUserId := 2, nextLikeId := 1 }

/-- The `aliceDB` store after account 1 liked track "s", used to
evaluate the theorems on closed inputs. -/
def likedDB : DB :=
  { users := [⟨1, "alice", "sal:pw1"⟩], likes := [⟨1, 1, "s", "t", "a", "u"⟩],
    nextUserId := 2, nextLikeId := 2 }

/-- A concrete raw catalog record used to evaluate the theorems on
closed inputs: one artist, two thumbnails (the second being the
highest-resolution one). -/
def demoSong : RawSong := ⟨"v1", "T", [⟨"A"⟩], [⟨"lo"⟩, ⟨"U"⟩]⟩

/-- The payload `demoSong` extracts to. -/
def demoTrack : Track := ⟨"v1", "T", "A", "U"⟩

/-! ### List-level helper lemmas -/

theorem find?_none_iff_countZero {α : Type} (p : α → Bool) (l : List α) :
    l.find? p = none ↔ (l.filter p).length = 0 := by
  rw [List.find?_eq_none, List.length_eq_zero, List.filter_eq_nil_iff]

theorem length_filter_eraseP_of_mem {α : Type} (p : α → Bool) :
    ∀ l : List α, (∃ x ∈ l, p x = true) →
      ((l.eraseP p).filter p).length + 1 = (l.filter p).length := by
  intro l
  induction l with
  | nil => rintro ⟨x, hx, -⟩; exact absurd hx (List.not_mem_nil x)
  | cons x xs ih =>
    rintro ⟨y, hy, hpy⟩
    by_cases hx : p x = true
    · rw [List.eraseP_cons_of_pos hx, List.filter_cons_of_pos hx]
      simp
    · have hxn : p x = false := by simpa using hx
      rw [List.eraseP_cons_of_neg hx, List.filter_cons_of_neg hx,
        List.filter_cons_of_neg hx]
      rcases List.mem_cons.mp hy with rfl | hy'
      · exact absurd hpy hx
      · exact ih ⟨y, hy', hpy⟩

theorem find?_first_match {α : Type} {p : α → Bool} {m : α} (hm : p m = true) :
    ∀ (l1 l2 : List α), (∀ b ∈ l1, p b = false) →
      (l1 ++ m :: l2).find? p = some m := by
  intro l1
  induction l1 with
  | nil => intro l2 _; simp [List.find?_cons, hm]
  | cons b bs ih =>
    intro l2 hcl
    have hb : p b = false := hcl b (List.mem_cons_self b bs)
    simpa [List.find?_cons, hb] using
      ih l2 (fun c hc => hcl c (List.mem_cons_of_mem b hc))

theorem eraseP_first_match {α : Type} {p : α → Bool} {m : α} (hm : p m = true) :
    ∀ (l1 l2 : List α), (∀ b ∈ l1, p b = false) →
      (l1 ++ m :: l2).eraseP p = l1 ++ l2 := by
  intro l1
  induction l1 with
  | nil => intro l2 _; simp [List.eraseP_cons, hm]
  | cons b bs ih =>
    intro l2 hcl
    have hb : p b = false := hcl b (List.mem_cons_self b bs)
    simp only [List.cons_append, List.eraseP_cons, hb, cond_false]
    rw [ih l2 (fun c hc => hcl c (List.mem_cons_of_mem b hc))]

/-! ### Characterization of the toggle step -/

/-- The status returned by one toggle is decided by whether any row
matches the pair. -/
theorem toggle_like_fst (uid : Int) (sid t a th : String) (db : DB) :
    (toggle_like uid sid t a th db).1 =
      if countMatch uid sid db = 0 then "liked" else "unliked" := by
  cases hf : db.likes.find? (likeMatches uid sid) with
  | none =>
    have h0 : countMatch uid sid db = 0 :=
      (find?_none_iff_countZero _ _).mp hf
    simp [toggle_like, hf, h0]
  | some m =>
    have h0 : countMatch uid sid db ≠ 0 := by
      intro hc
      rw [(find?_none_iff_countZero (likeMatches uid sid) db.likes).mpr hc] at hf
      exact Option.noConfusion hf
    simp [toggle_like, hf, h0]

/-- The matching-row count after one toggle: a fresh pair gains its
row; a present pair loses exactly one row. -/
theorem countMatch_toggle_like (uid : Int) (sid t a th : String) (db : DB) :
    countMatch uid sid (toggle_like uid sid t a th db).2 =
      if countMatch uid sid db = 0 then 1 else countMatch uid sid db - 1 := by
  cases hf : db.likes.find? (likeMatches uid sid) with
  | none =>
    have h0 : countMatch uid sid db = 0 :=
      (find?_none_iff_countZero _ _).mp hf
    have hnil : db.likes.filter (likeMatches uid sid) = [] :=
      List.length_eq_zero.mp h0
    simp [toggle_like, hf, h0, countMatch, List.filter_append, hnil, likeMatches]
  | some m =>
    have h0 : countMatch uid sid db ≠ 0 := by
      intro hc
      rw [(find?_none_iff_countZero (likeMatches uid sid) db.likes).mpr hc] at hf
      exact Option.noConfusion hf
    have hmem : ∃ x ∈ db.likes, likeMatches uid sid x = true := by
      have := List.find?_some hf
      exact ⟨m, List.mem_of_find?_eq_some hf, this⟩
    have hlen := length_filter_eraseP_of_mem (likeMatches uid sid) db.likes hmem
    rw [if_neg h0]
    simp only [toggle_like, hf]
    simp only [countMatch] at hlen ⊢
    omega

/-- The matching-row count after n successive toggles on a fresh pair
is the parity of n. -/
theorem countMatch_toggleN (uid : Int) (sid t a th : String) (db : DB)
    (h0 : countMatch uid sid db = 0) :
    ∀ n : Nat, countMatch uid sid (toggleN uid sid t a th n db) = n % 2 := by
  intro n
  induction n with
  | zero => simpa [toggleN] using h0
  | succ n ih =>
    rw [toggleN, countMatch_toggle_like]
    rcases Nat.mod_two_eq_zero_or_one n with hn | hn <;> rw [ih, hn] <;> simp <;> omega

end Voofo

/-- C1: on a pair starting with no row, N successive toggleLike calls
leave exactly one matching row with the Nth call returning "liked"
when N is odd, and no matching row with the Nth call returning
"unliked" when N is even; two consecutive calls restore the original
pair state (the toggle is not idempotent). -/
theorem toggle_like_flip_law_C1 (db : Voofo.DB) (uid : Int)
    (sid t a th : String) (h0 : Voofo.countMatch uid sid db = 0) :
    ∀ N : Nat, 0 < N →
      Voofo.countMatch uid sid (Voofo.toggleN uid sid t a th N db) = N % 2 ∧
      ((Voofo.toggle_like uid sid t a th
          (Voofo.toggleN uid sid t a th (N - 1) db)).1 =
        if N % 2 = 1 then "liked" else "unliked") ∧
      Voofo.countMatch uid sid (Voofo.toggleN uid sid t a th 2 db) =
        Voofo.countMatch uid sid db := by
  intro N hN
  refine ⟨Voofo.countMatch_toggleN uid sid t a th db h0 N, ?_, ?_⟩
  · rw [Voofo.toggle_like_fst,
      Voofo.countMatch_toggleN uid sid t a th db h0 (N - 1)]
    rcases Nat.mod_two_eq_zero_or_one N with hn | hn
    · have h1 : ¬((N - 1) % 2 = 0) := by omega
      rw [if_neg h1, if_neg (by omega)]
    · have h1 : (N - 1) % 2 = 0 := by omega
      rw [if_pos h1, if_pos hn]
  · rw [Voofo.countMatch_toggleN uid sid t a th db h0 2, h0]

/-- Witness for C1 at a concrete store and N = 3: the pair is liked
(one row) after an odd number of calls, and the two-call round trip
restores the empty pair state. -/
theorem toggle_like_flip_law_C1_witness :
    Voofo.countMatch 7 "trackX"
        (Voofo.toggleN 7 "trackX" "T" "A" "U" 3 Voofo.emptyDB) = 3 % 2 ∧
      ((Voofo.toggle_like 7 "trackX" "T" "A" "U"
          (Voofo.toggleN 7 "trackX" "T" "A" "U" (3 - 1) Voofo.emptyDB)).1 =
        if 3 % 2 = 1 then "liked" else "unliked") ∧
      Voofo.countMatch 7 "trackX"
          (Voofo.toggleN 7 "trackX" "T" "A" "U" 2 Voofo.emptyDB) =
        Voofo.countMatch 7 "trackX" Voofo.emptyDB :=
  toggle_like_flip_law_C1 Voofo.emptyDB 7 "trackX" "T" "A" "U" (by decide) 3
    (by decide)

namespace Voofo

/-- Neither toggle branch touches the `users` table. -/
theorem toggle_like_users (uid : Int) (sid t a th : String) (db : DB) :
    (toggle_like uid sid t a th db).2.users = db.users := by
  cases hf : db.likes.find? (likeMatches uid sid) <;> simp [toggle_like, hf]

/-- When some row matches, the delete branch runs: the new `likes`
table is the old one with its first match erased. -/
theorem toggle_like_snd_of_match (uid : Int) (sid t a th : String) (db : DB)
    (hmem : ∃ l ∈ db.likes, likeMatches uid sid l = true) :
    (toggle_like uid sid t a th db).2.likes =
      db.likes.eraseP (likeMatches uid sid) := by
  cases hf : db.likes.find? (likeMatches uid sid) with
  | none =>
    rcases hmem with ⟨l, hl, hpl⟩
    have := List.find?_eq_none.mp hf l hl
    simp [hpl] at this
  | some m => simp [toggle_like, hf]

/-- When no row matches, the insert branch runs: one new row holding
the supplied metadata snapshot is appended. -/
theorem toggle_like_snd_of_nomatch (uid : Int) (sid t a th : String) (db : DB)
    (hno : ∀ l ∈ db.likes, likeMatches uid sid l = false) :
    (toggle_like uid sid t a th db).2.likes =
      db.likes ++ [⟨db.nextLikeId, uid, sid, t, a, th⟩] := by
  have hf : db.likes.find? (likeMatches uid sid) = none :=
    List.find?_eq_none.mpr (fun l hl => by simp [hno l hl])
  simp [toggle_like, hf]

end Voofo

/-- C4: for every account_id (no existence check against the users
table) and track_id, a matching row makes the toggle delete exactly
one row and answer "unliked", while no matching row makes it append
one row carrying the supplied title/artist/thumbnail snapshot and
answer "liked"; the users table is never touched, so an account_id
naming no `User` row still gets an (orphaned) like row. -/
theorem toggle_like_spec_C4 (db : Voofo.DB) (uid : Int) (sid t a th : String) :
    ((∃ l ∈ db.likes, Voofo.likeMatches uid sid l = true) →
      (Voofo.toggle_like uid sid t a th db).1 = "unliked" ∧
      (Voofo.toggle_like uid sid t a th db).2.likes.length + 1 =
        db.likes.length ∧
      Voofo.countMatch uid sid (Voofo.toggle_like uid sid t a th db).2 + 1 =
        Voofo.countMatch uid sid db) ∧
    ((∀ l ∈ db.likes, Voofo.likeMatches uid sid l = false) →
      (Voofo.toggle_like uid sid t a th db).1 = "liked" ∧
      (Voofo.toggle_like uid sid t a th db).2.likes =
        db.likes ++ [⟨db.nextLikeId, uid, sid, t, a, th⟩]) ∧
    (Voofo.toggle_like uid sid t a th db).2.users = db.users ∧
    ((∀ u ∈ db.users, u.id ≠ uid) →
      (∀ l ∈ db.likes, Voofo.likeMatches uid sid l = false) →
      ∃ row ∈ (Voofo.toggle_like uid sid t a th db).2.likes,
        row.user_id = uid ∧ row.song_id = sid ∧ row.title = t ∧
        row.artist = a ∧ row.thumbnail = th) := by
  refine ⟨?_, ?_, Voofo.toggle_like_users uid sid t a th db, ?_⟩
  · intro hmem
    have hcount : Voofo.countMatch uid sid db ≠ 0 := by
      intro hc
      have hnil := List.length_eq_zero.mp hc
      rcases hmem with ⟨l, hl, hpl⟩
      have : l ∈ db.likes.filter (Voofo.likeMatches uid sid) :=
        List.mem_filter.mpr ⟨hl, hpl⟩
      rw [hnil] at this
      exact absurd this (List.not_mem_nil l)
    refine ⟨?_, ?_, ?_⟩
    · rw [Voofo.toggle_like_fst, if_neg hcount]
    · rw [Voofo.toggle_like_snd_of_match uid sid t a th db hmem]
      rcases hmem with ⟨l, hl, hpl⟩
      rw [List.length_eraseP_of_mem hl hpl]
      have : db.likes.length ≠ 0 := by
        intro hz
        rw [List.length_eq_zero.mp hz] at hl
        exact absurd hl (List.not_mem_nil l)
      omega
    · rw [Voofo.countMatch_toggle_like, if_neg hcount]
      omega
  · intro hno
    have h0 : Voofo.countMatch uid sid db = 0 := by
      rw [Voofo.countMatch, List.length_eq_zero, List.filter_eq_nil_iff]
      intro l hl
      simp [hno l hl]
    exact ⟨by rw [Voofo.toggle_like_fst, if_pos h0],
      Voofo.toggle_like_snd_of_nomatch uid sid t a th db hno⟩
  · intro _ hno
    refine ⟨⟨db.nextLikeId, uid, sid, t, a, th⟩, ?_, rfl, rfl, rfl, rfl, rfl⟩
    rw [Voofo.toggle_like_snd_of_nomatch uid sid t a th db hno]
    simp

/-- Witness for C4 on a store with one existing user (id 1) and no
likes: toggling for the nonexistent account 42 still inserts the
orphaned snapshot row and answers "liked". -/
theorem toggle_like_spec_C4_witness :
    (Voofo.toggle_like 42 "s1" "T1" "A1" "U1"
        ⟨[⟨1, "alice", "h"⟩], [], 2, 1⟩).1 = "liked" ∧
    (Voofo.toggle_like 42 "s1" "T1" "A1" "U1"
        ⟨[⟨1, "alice", "h"⟩], [], 2, 1⟩).2.likes =
      [⟨1, 42, "s1", "T1", "A1", "U1"⟩] := by
  have h := toggle_like_spec_C4 ⟨[⟨1, "alice", "h"⟩], [], 2, 1⟩ 42 "s1" "T1" "A1" "U1"
  have hins := h.2.1 (by decide)
  exact ⟨hins.1, by simpa using hins.2⟩

/-- C10: when the likes table decomposes as l1 ++ m :: l2 with m the
first row matching the pair (k ≥ 1 matches in total), one toggle call
deletes exactly that row, answers "unliked", and leaves every other
row — the remaining matches included — unchanged. -/
theorem toggle_like_delete_one_C10 (db : Voofo.DB) (uid : Int)
    (sid t a th : String) (l1 l2 : List Voofo.LikedSong) (m : Voofo.LikedSong)
    (hdec : db.likes = l1 ++ m :: l2)
    (hl1 : ∀ b ∈ l1, Voofo.likeMatches uid sid b = false)
    (hm : Voofo.likeMatches uid sid m = true) :
    Voofo.toggle_like uid sid t a th db =
      ("unliked", { db with likes := l1 ++ l2 }) := by
  have hf : db.likes.find? (Voofo.likeMatches uid sid) = some m := by
    rw [hdec]; exact Voofo.find?_first_match hm l1 l2 hl1
  have he : db.likes.eraseP (Voofo.likeMatches uid sid) = l1 ++ l2 := by
    rw [hdec]; exact Voofo.eraseP_first_match hm l1 l2 hl1
  simp [Voofo.toggle_like, hf, he]

/-- Witness for C10 on a store holding two duplicate rows for the pair
(1, "s") plus one row of another pair: one toggle deletes only the
first duplicate. -/
theorem toggle_like_delete_one_C10_witness :
    Voofo.toggle_like 1 "s" "t" "a" "u"
        ⟨[], [⟨1, 2, "other", "t", "a", "u"⟩, ⟨2, 1, "s", "t", "a", "u"⟩,
          ⟨3, 1, "s", "t", "a", "u"⟩], 1, 4⟩ =
      ("unliked", ⟨[], [⟨1, 2, "other", "t", "a", "u"⟩,
        ⟨3, 1, "s", "t", "a", "u"⟩], 1, 4⟩) :=
  toggle_like_delete_one_C10
    ⟨[], [⟨1, 2, "other", "t", "a", "u"⟩, ⟨2, 1, "s", "t", "a", "u"⟩,
      ⟨3, 1, "s", "t", "a", "u"⟩], 1, 4⟩ 1 "s" "t" "a" "u"
    [⟨1, 2, "other", "t", "a", "u"⟩] [⟨3, 1, "s", "t", "a", "u"⟩]
    ⟨2, 1, "s", "t", "a", "u"⟩ (by decide) (by decide) (by decide)

namespace Voofo

/-- In a list of users with pairwise-distinct usernames, the lookup
by username finds exactly the member carrying it. -/
theorem find?_username_of_mem {username : String} :
    ∀ {l : List User},
      l.Pairwise (fun a b => a.username ≠ b.username) →
      ∀ {u : User}, u ∈ l → u.username = username →
      l.find? (fun v => v.username == username) = some u := by
  intro l
  induction l with
  | nil => intro _ u hu; exact absurd hu (List.not_mem_nil u)
  | cons x xs ih =>
    intro hpw u hu hn
    rcases List.mem_cons.mp hu with rfl | hmem
    · simp [List.find?_cons, hn]
    · have hx : x.username ≠ username := by
        have hne := (List.pairwise_cons.mp hpw).1 u hmem
        rw [hn] at hne
        exact hne
      have hxb : (x.username == username) = false := by
        simpa using hx
      simp only [List.find?_cons, hxb]
      exact ih (List.pairwise_cons.mp hpw).2 hmem hn

end Voofo

/-- C2: with non-empty credentials, register fails with the 400
duplicate-username error exactly when a user row with that username
already exists (and then writes nothing); otherwise it appends exactly
one user row whose stored password is the salted bcrypt hash of the
supplied password, leaves the likes table alone, and a second
registration of the same username on the resulting store fails with
the duplicate error. -/
theorem register_spec_C2 (bc : Voofo.Bcrypt) (salt salt2 : String)
    (username password password2 : String) (db : Voofo.DB)
    (hu : username ≠ "") (hp : password ≠ "") (hp2 : password2 ≠ "") :
    ((∃ u ∈ db.users, u.username = username) ↔
      Voofo.register bc salt (some username) (some password) db =
        .error (.badRequest "Username already exists")) ∧
    (Voofo.ApiErr.badRequest "Username already exists").statusCode = 400 ∧
    ((∀ u ∈ db.users, u.username ≠ username) →
      ∃ db', Voofo.register bc salt (some username) (some password) db =
          .ok db' ∧
        db'.users = db.users ++
          [⟨db.nextUserId, username, bc.hashpw password salt⟩] ∧
        db'.likes = db.likes ∧
        Voofo.register bc salt2 (some username) (some password2) db' =
          .error (.badRequest "Username already exists")) := by
  have hfu : Voofo.falsy (some username) = false := by simpa [Voofo.falsy] using hu
  have hfp : Voofo.falsy (some password) = false := by simpa [Voofo.falsy] using hp
  have hfp2 : Voofo.falsy (some password2) = false := by simpa [Voofo.falsy] using hp2
  refine ⟨?_, rfl, ?_⟩
  · by_cases hdup : db.users.any (fun u => u.username == username) = true
    · constructor
      · intro _; simp [Voofo.register, hfu, hfp, hdup]
      · intro _
        rcases List.any_eq_true.mp hdup with ⟨u, hu', hub⟩
        exact ⟨u, hu', by simpa using hub⟩
    · constructor
      · rintro ⟨u, hu', rfl⟩
        exact absurd (List.any_eq_true.mpr ⟨u, hu', by simp⟩) hdup
      · intro hreg
        have hdupf : db.users.any (fun u => u.username == username) = false := by
          simpa using hdup
        simp [Voofo.register, hfu, hfp, hdupf] at hreg
  · intro hnone
    have hdupf : db.users.any (fun u => u.username == username) = false := by
      rw [List.any_eq_false]
      intro u hu'
      simpa using hnone u hu'
    refine ⟨{ db with
        users := db.users ++
          [⟨db.nextUserId, username, Voofo.hash_password bc password salt⟩],
        nextUserId := db.nextUserId + 1 },
      by simp [Voofo.register, hfu, hfp, hdupf], rfl, rfl, ?_⟩
    have hdup2 : (db.users ++
        [(⟨db.nextUserId, username, Voofo.hash_password bc password salt⟩ :
          Voofo.User)]).any (fun u => u.username == username) = true :=
      List.any_eq_true.mpr ⟨_, List.mem_append_right _ (List.mem_singleton.mpr rfl),
        by simp⟩
    simp [Voofo.register, hfu, hfp2, hdup2]

/-- Witness for C2: registering "alice" on the empty store inserts her
row with the salted hash, and registering "alice" again on the result
fails with the duplicate error. -/
theorem register_spec_C2_witness :
    ((∃ u ∈ Voofo.emptyDB.users, u.username = "alice") ↔
      Voofo.register Voofo.demoBcrypt "sal" (some "alice") (some "pw1")
          Voofo.emptyDB =
        .error (.badRequest "Username already exists")) ∧
    (Voofo.ApiErr.badRequest "Username already exists").statusCode = 400 ∧
    ((∀ u ∈ Voofo.emptyDB.users, u.username ≠ "alice") →
      ∃ db', Voofo.register Voofo.demoBcrypt "sal" (some "alice") (some "pw1")
          Voofo.emptyDB = .ok db' ∧
        db'.users = Voofo.emptyDB.users ++
          [⟨Voofo.emptyDB.nextUserId, "alice",
            Voofo.demoBcrypt.hashpw "pw1" "sal"⟩] ∧
        db'.likes = Voofo.emptyDB.likes ∧
        Voofo.register Voofo.demoBcrypt "sal2" (some "alice") (some "pw2") db' =
          .error (.badRequest "Username already exists")) :=
  register_spec_C2 Voofo.demoBcrypt "sal" "sal2" "alice" "pw1" "pw2"
    Voofo.emptyDB (by decide) (by decide) (by decide)

/-- C3: under the register-maintained invariant that usernames are
pairwise distinct, login succeeds with the stored account's id and
username exactly when a user row with the supplied username exists and
the password verifies against its stored hash; an unknown username and
a failing verification both produce the identical 401
"Invalid credentials" error. -/
theorem login_spec_C3 (bc : Voofo.Bcrypt) (username password : String)
    (db : Voofo.DB)
    (hnodup : db.users.Pairwise (fun a b => a.username ≠ b.username)) :
    (∀ u ∈ db.users, u.username = username →
      (Voofo.verify_password bc password u.password = true →
        Voofo.login bc (some username) (some password) db =
          .ok (u.id, u.username)) ∧
      (Voofo.verify_password bc password u.password = false →
        Voofo.login bc (some username) (some password) db =
          .error (.unauthorized "Invalid credentials"))) ∧
    ((∀ u ∈ db.users, u.username ≠ username) →
      Voofo.login bc (some username) (some password) db =
        .error (.unauthorized "Invalid credentials")) ∧
    (Voofo.ApiErr.unauthorized "Invalid credentials").statusCode = 401 := by
  refine ⟨?_, ?_, rfl⟩
  · intro u hu hn
    have hfind := Voofo.find?_username_of_mem hnodup hu hn
    constructor
    · intro hv; simp [Voofo.login, hfind, hv]
    · intro hv; simp [Voofo.login, hfind, hv]
  · intro hnone
    have hfind : db.users.find? (fun v => v.username == username) = none :=
      List.find?_eq_none.mpr (fun u hu => by simpa using hnone u hu)
    simp [Voofo.login, hfind]

/-- Witness for C3 on a one-user store: the right password logs
"alice" in with her id, the wrong one gets the 401. -/
theorem login_spec_C3_witness :
    (∀ u ∈ Voofo.aliceDB.users, u.username = "alice" →
      (Voofo.verify_password Voofo.demoBcrypt "pw1" u.password = true →
        Voofo.login Voofo.demoBcrypt (some "alice") (some "pw1")
            Voofo.aliceDB =
          .ok (u.id, u.username)) ∧
      (Voofo.verify_password Voofo.demoBcrypt "pw1" u.password = false →
        Voofo.login Voofo.demoBcrypt (some "alice") (some "pw1")
            Voofo.aliceDB =
          .error (.unauthorized "Invalid credentials"))) ∧
    ((∀ u ∈ Voofo.aliceDB.users, u.username ≠ "alice") →
      Voofo.login Voofo.demoBcrypt (some "alice") (some "pw1")
          Voofo.aliceDB =
        .error (.unauthorized "Invalid credentials")) ∧
    (Voofo.ApiErr.unauthorized "Invalid credentials").statusCode = 401 :=
  login_spec_C3 Voofo.demoBcrypt "alice" "pw1" Voofo.aliceDB
    (by simp [Voofo.aliceDB])

/-- C6: a track payload is in the get_liked response for an account
exactly when some LikedSong row of that account projects to it — so
the response is exactly the set of that account's liked rows and never
contains a track liked only by another account. -/
theorem get_liked_spec_C6 (db : Voofo.DB) (uid : Int) (t : Voofo.Track) :
    t ∈ Voofo.get_liked uid db ↔
      ∃ l ∈ db.likes, l.user_id = uid ∧
        t = ⟨l.song_id, l.title, l.artist, l.thumbnail⟩ := by
  simp only [Voofo.get_liked, List.mem_map, List.mem_filter]
  constructor
  · rintro ⟨l, ⟨hl, hb⟩, rfl⟩
    exact ⟨l, hl, by simpa using hb, rfl⟩
  · rintro ⟨l, hl, huid, rfl⟩
    exact ⟨l, ⟨hl, by simpa using huid⟩, rfl⟩

namespace Voofo

/-- A successful extraction preserves the number of records. -/
theorem extractAll_length :
    ∀ {l : List RawSong} {ts : List Track},
      extractAll l = some ts → ts.length = l.length := by
  intro l
  induction l with
  | nil => intro ts h; simp [extractAll] at h; simp [← h]
  | cons s rest ih =>
    intro ts h
    simp only [extractAll] at h
    cases hs : extractSong s with
    | none => rw [hs] at h; exact absurd h (by simp)
    | some t =>
      rw [hs] at h
      cases hr : extractAll rest with
      | none => rw [hr] at h; exact absurd h (by simp)
      | some ts' =>
        rw [hr] at h
        simp only [Option.some.injEq] at h
        subst h
        simp [ih hr]

end Voofo

/-- C8: a raising catalog call makes trending and search answer the
empty list, an uninitialized catalog client makes them answer the
inline service-unavailable payload, and every outcome of either
endpoint is one of these two shapes — no internal fault propagates. -/
theorem catalog_failure_swallowed_C8 :
    (∀ e : String, Voofo.trending (some (Except.error e)) = .tracks [] ∧
      Voofo.search (some (Except.error e)) = .tracks []) ∧
    Voofo.trending none = .unavailable "YouTube Music service unavailable" ∧
    Voofo.search none = .unavailable "YouTube Music service unavailable" ∧
    (∀ yt : Voofo.YtOutcome,
      (∃ l, Voofo.trending yt = .tracks l) ∨
        (∃ p, Voofo.trending yt = .unavailable p)) ∧
    (∀ yt : Voofo.YtOutcome,
      (∃ l, Voofo.search yt = .tracks l) ∨
        (∃ p, Voofo.search yt = .unavailable p)) := by
  refine ⟨fun e => ⟨rfl, rfl⟩, rfl, rfl, fun yt => ?_, fun yt => ?_⟩
  · cases h : Voofo.trending yt with
    | tracks l => exact Or.inl ⟨l, rfl⟩
    | unavailable p => exact Or.inr ⟨p, rfl⟩
  · cases h : Voofo.search yt with
    | tracks l => exact Or.inl ⟨l, rfl⟩
    | unavailable p => exact Or.inr ⟨p, rfl⟩

/-- C9: trending never returns more than 15 entries; when extraction
of the first 15 chart records succeeds it returns exactly those, in
chart order; and each record extracts to its id, title, first-listed
artist name and last-listed thumbnail URL. -/
theorem trending_truncates_C9 :
    (∀ (songs : List Voofo.RawSong) (ts : List Voofo.Track),
      Voofo.trending (some (Except.ok songs)) = .tracks ts →
        ts.length ≤ 15) ∧
    (∀ (songs : List Voofo.RawSong) (ts : List Voofo.Track),
      Voofo.extractAll (songs.take 15) = some ts →
        Voofo.trending (some (Except.ok songs)) = .tracks ts) ∧
    (∀ (s : Voofo.RawSong) (a : Voofo.Artist) (tl : List Voofo.Artist)
        (th : Voofo.Thumb),
      s.artists = a :: tl → s.thumbnails.getLast? = some th →
        Voofo.extractSong s = some ⟨s.videoId, s.title, a.name, th.url⟩) := by
  refine ⟨?_, ?_, ?_⟩
  · intro songs ts h
    simp only [Voofo.trending] at h
    cases he : Voofo.extractAll (songs.take 15) with
    | none =>
      rw [he] at h
      simp only [Voofo.CatalogResult.tracks.injEq] at h
      simp [← h]
    | some ts' =>
      rw [he] at h
      simp only [Voofo.CatalogResult.tracks.injEq] at h
      subst h
      rw [Voofo.extractAll_length he, List.length_take]
      omega
  · intro songs ts h
    simp [Voofo.trending, h]
  · intro s a tl th ha hth
    simp [Voofo.extractSong, ha, hth]

/-- Witness for C9: a 16-entry chart is truncated to 15 extracted
payloads, and the demo record extracts its first artist and last
thumbnail. -/
theorem trending_truncates_C9_witness :
    (List.replicate 15 Voofo.demoTrack).length ≤ 15 ∧
    Voofo.trending (some (Except.ok (List.replicate 16 Voofo.demoSong))) =
      .tracks (List.replicate 15 Voofo.demoTrack) ∧
    Voofo.extractSong Voofo.demoSong =
      some ⟨Voofo.demoSong.videoId, Voofo.demoSong.title, "A", "U"⟩ := by
  have h := trending_truncates_C9
  refine ⟨?_, ?_, ?_⟩
  · exact h.1 (List.replicate 16 Voofo.demoSong) (List.replicate 15 Voofo.demoTrack)
      (h.2.1 _ _ (by decide))
  · exact h.2.1 _ _ (by decide)
  · exact h.2.2 Voofo.demoSong ⟨"A"⟩ [] ⟨"U"⟩ (by decide) (by decide)

namespace Voofo

/-- A successful registration writes only the users table. -/
theorem register_ok_likes {bc : Bcrypt} {salt : String}
    {u? p? : Option String} {db db' : DB}
    (h : register bc salt u? p? db = .ok db') : db'.likes = db.likes := by
  simp only [register] at h
  split at h
  · exact absurd h (by simp)
  · split at h
    · exact absurd h (by simp)
    · simp only [Except.ok.injEq] at h
      rw [← h]

/-- A successful toggle through the HTTP boundary either erases the
first row matching the pair or, when no row matched, appends the one
snapshot row. -/
theorem toggle_like_api_ok {uid? : Option Int}
    {sid? t? a? th? : Option String} {db : DB} {st : String} {db' : DB}
    (h : toggle_like_api uid? sid? t? a? th? db = .ok (st, db')) :
    ∃ uid sid, uid? = some uid ∧ sid? = some sid ∧
      (db'.likes = db.likes.eraseP (likeMatches uid sid) ∨
        (db.likes.find? (likeMatches uid sid) = none ∧
          ∃ t a th, db'.likes =
            db.likes ++ [⟨db.nextLikeId, uid, sid, t, a, th⟩])) := by
  cases uid? with
  | none => exact absurd h (by simp [toggle_like_api])
  | some uid =>
    cases sid? with
    | none => exact absurd h (by simp [toggle_like_api])
    | some sid =>
      refine ⟨uid, sid, rfl, rfl, ?_⟩
      cases hf : db.likes.find? (likeMatches uid sid) with
      | some m =>
        left
        simp only [toggle_like_api, hf] at h
        simp only [Except.ok.injEq, Prod.mk.injEq] at h
        rw [← h.2]
      | none =>
        right
        refine ⟨rfl, ?_⟩
        cases t? with
        | none => exact absurd h (by simp [toggle_like_api, hf])
        | some t =>
          cases a? with
          | none => exact absurd h (by simp [toggle_like_api, hf])
          | some a =>
            cases th? with
            | none => exact absurd h (by simp [toggle_like_api, hf])
            | some th =>
              simp only [toggle_like_api, hf] at h
              simp only [Except.ok.injEq, Prod.mk.injEq] at h
              exact ⟨t, a, th, by rw [← h.2]⟩

/-- A successful toggle through the HTTP boundary preserves the
at-most-one-row-per-pair invariant. -/
theorem toggle_like_api_preserves {uid? : Option Int}
    {sid? t? a? th? : Option String} {db : DB} {st : String} {db' : DB}
    (h : atMostOnePair db)
    (hr : toggle_like_api uid? sid? t? a? th? db = .ok (st, db')) :
    atMostOnePair db' := by
  intro uid' sid'
  rcases toggle_like_api_ok hr with
    ⟨uid, sid, -, -, hcase | ⟨hf, t, a, th, hlikes⟩⟩
  · have hsub : List.Sublist (db'.likes.filter (likeMatches uid' sid'))
        (db.likes.filter (likeMatches uid' sid')) := by
      rw [hcase]
      exact List.Sublist.filter _ (List.eraseP_sublist db.likes)
    exact le_trans hsub.length_le (h uid' sid')
  · simp only [countMatch, hlikes, List.filter_append, List.length_append]
    by_cases hm : likeMatches uid' sid'
        (⟨db.nextLikeId, uid, sid, t, a, th⟩ : LikedSong) = true
    · have hids : uid = uid' ∧ sid = sid' := by
        simpa [likeMatches] using hm
      obtain ⟨rfl, rfl⟩ := hids
      have h0 : countMatch uid sid db = 0 :=
        (find?_none_iff_countZero _ _).mp hf
      simp only [countMatch] at h0
      simp [h0, hm]
    · have hmf : likeMatches uid' sid'
          (⟨db.nextLikeId, uid, sid, t, a, th⟩ : LikedSong) = false := by
        simpa using hm
      simpa [hmf] using h uid' sid'

/-- Every single operation preserves the at-most-one-row-per-pair
invariant. -/
theorem step_preserves_atMostOnePair (bc : Bcrypt) (db : DB) (op : Op)
    (h : atMostOnePair db) : atMostOnePair (step bc db op) := by
  cases op with
  | auth u? p? => exact h
  | list uid => exact h
  | reg salt u? p? =>
    simp only [step]
    cases hr : register bc salt u? p? db with
    | error e => exact h
    | ok db' =>
      intro uid sid
      have hl := register_ok_likes hr
      simpa [countMatch, hl] using h uid sid
  | toggle uid? sid? t? a? th? =>
    simp only [step]
    cases hr : toggle_like_api uid? sid? t? a? th? db with
    | error e => exact h
    | ok res =>
      obtain ⟨st, db'⟩ := res
      exact toggle_like_api_preserves h hr

end Voofo

/-- C5: starting from the empty store, every sequential trace of
register, authenticate, toggle-like and list-likes operations leaves
at most one LikedSong row per (account_id, track_id) pair. -/
theorem sequential_ops_at_most_one_like_C5 (bc : Voofo.Bcrypt)
    (ops : List Voofo.Op) :
    Voofo.atMostOnePair (Voofo.run bc ops Voofo.emptyDB) := by
  have hrun : ∀ (l : List Voofo.Op) (db : Voofo.DB),
      Voofo.atMostOnePair db → Voofo.atMostOnePair (Voofo.run bc l db) := by
    intro l
    induction l with
    | nil => intro db hdb; exact hdb
    | cons op rest ih =>
      intro db hdb
      exact ih (Voofo.step bc db op)
        (Voofo.step_preserves_atMostOnePair bc db op hdb)
  exact hrun ops Voofo.emptyDB (fun uid sid => by simp [Voofo.countMatch, Voofo.emptyDB])

/-- C7 as stated is false: a login request whose body lacks the
username field is answered with a generic 500 server fault (the
`data['username']` access raises `KeyError`), not an HTTP 400 client
error. -/
theorem missing_field_C7_counterexample :
    Voofo.login Voofo.demoBcrypt none (some "pw1") Voofo.aliceDB =
      .error (.serverFault "KeyError: username") ∧
    (Voofo.ApiErr.serverFault "KeyError: username").statusCode = 500 ∧
    (Voofo.ApiErr.serverFault "KeyError: username").statusCode ≠ 400 :=
  ⟨rfl, rfl, by decide⟩

/-- C7 amended: register validates its input — a missing or empty
username/password yields the 400 client error, store unchanged.
Login and toggle-like do not validate: a missing login username is an
uncaught KeyError surfacing as a generic 500; a missing login
password is the 500 KeyError only when the username matches an
account, and the plain 401 when it matches none (the short-circuit
never reads the password field); a missing toggle user_id or song_id
is the 500 KeyError; a missing toggle title/artist/thumbnail is the
500 KeyError only when no row matches the pair — when one matches,
the call succeeds with "unliked" without reading those fields.  Every
failing case leaves the store unchanged. -/
theorem missing_fields_amended_C7 (bc : Voofo.Bcrypt) (salt : String)
    (u? p? : Option String) (username : String) (uid? : Option Int)
    (uid : Int) (sid? : Option String) (sid : String)
    (t? a? th? : Option String) (db : Voofo.DB) :
    ((Voofo.falsy u? || Voofo.falsy p?) = true →
      Voofo.register bc salt u? p? db =
        .error (.badRequest "Username and password required") ∧
      (Voofo.ApiErr.badRequest "Username and password required").statusCode
        = 400 ∧
      Voofo.step bc db (.reg salt u? p?) = db) ∧
    (Voofo.login bc none p? db = .error (.serverFault "KeyError: username") ∧
      (Voofo.ApiErr.serverFault "KeyError: username").statusCode = 500 ∧
      Voofo.step bc db (.auth none p?) = db) ∧
    ((∀ u ∈ db.users, u.username ≠ username) →
      Voofo.login bc (some username) none db =
        .error (.unauthorized "Invalid credentials") ∧
      (Voofo.ApiErr.unauthorized "Invalid credentials").statusCode = 401) ∧
    ((∃ u ∈ db.users, u.username = username) →
      Voofo.login bc (some username) none db =
        .error (.serverFault "KeyError: password") ∧
      (Voofo.ApiErr.serverFault "KeyError: password").statusCode = 500 ∧
      Voofo.step bc db (.auth (some username) none) = db) ∧
    ((uid? = none ∨ sid? = none) →
      Voofo.toggle_like_api uid? sid? t? a? th? db =
        .error (.serverFault "KeyError: missing like field") ∧
      (Voofo.ApiErr.serverFault "KeyError: missing like field").statusCode
        = 500 ∧
      Voofo.step bc db (.toggle uid? sid? t? a? th?) = db) ∧
    ((∃ l ∈ db.likes, Voofo.likeMatches uid sid l = true) →
      ∃ db', Voofo.toggle_like_api (some uid) (some sid) t? a? th? db =
        .ok ("unliked", db')) ∧
    ((t? = none ∨ a? = none ∨ th? = none) →
      (∀ l ∈ db.likes, Voofo.likeMatches uid sid l = false) →
      Voofo.toggle_like_api (some uid) (some sid) t? a? th? db =
        .error (.serverFault "KeyError: missing like field") ∧
      Voofo.step bc db (.toggle (some uid) (some sid) t? a? th?) = db) := by
  refine ⟨?_, ⟨rfl, rfl, rfl⟩, ?_, ?_, ?_, ?_, ?_⟩
  · intro hfal
    have hreg : Voofo.register bc salt u? p? db =
        .error (.badRequest "Username and password required") := by
      simp [Voofo.register, hfal]
    exact ⟨hreg, rfl, by simp [Voofo.step, hreg]⟩
  · intro hnone
    have hfind : db.users.find? (fun v => v.username == username) = none :=
      List.find?_eq_none.mpr (fun u hu => by simpa using hnone u hu)
    exact ⟨by simp [Voofo.login, hfind], rfl⟩
  · rintro ⟨u, hu, hn⟩
    cases hfind : db.users.find? (fun v => v.username == username) with
    | none =>
      have := List.find?_eq_none.mp hfind u hu
      simp [hn] at this
    | some user =>
      exact ⟨by simp [Voofo.login, hfind], rfl, rfl⟩
  · rintro (rfl | rfl)
    · exact ⟨rfl, rfl, rfl⟩
    · cases uid? with
      | none => exact ⟨rfl, rfl, rfl⟩
      | some u => exact ⟨rfl, rfl, rfl⟩
  · rintro ⟨l, hl, hpl⟩
    cases hf : db.likes.find? (Voofo.likeMatches uid sid) with
    | none =>
      have := List.find?_eq_none.mp hf l hl
      simp [hpl] at this
    | some m =>
      exact ⟨{ db with likes := db.likes.eraseP (Voofo.likeMatches uid sid) },
        by simp [Voofo.toggle_like_api, hf]⟩
  · intro hmiss hno
    have hf : db.likes.find? (Voofo.likeMatches uid sid) = none :=
      List.find?_eq_none.mpr (fun l hl => by simp [hno l hl])
    rcases t? with _ | t <;> rcases a? with _ | a <;> rcases th? with _ | th <;>
      first
        | (refine ⟨?_, ?_⟩ <;>
            (simp [Voofo.toggle_like_api, Voofo.step, hf]; done))
        | (rcases hmiss with h | h | h <;> simp at h)

/-- Witness for the amended C7, exercising every branch concretely:
register missing username → 400, store unchanged; login missing
username → 500; login missing password → 401 for unknown "bob" but
500 for known "alice"; toggle missing user_id → 500, store unchanged;
toggle missing metadata → succeeds with "unliked" when the row (1,"s")
exists, 500 with the store unchanged when it does not. -/
theorem missing_fields_amended_C7_witness :
    (Voofo.register Voofo.demoBcrypt "sal" none (some "pw1") Voofo.aliceDB =
        .error (.badRequest "Username and password required") ∧
      (Voofo.ApiErr.badRequest "Username and password required").statusCode
        = 400 ∧
      Voofo.step Voofo.demoBcrypt Voofo.aliceDB (.reg "sal" none (some "pw1"))
        = Voofo.aliceDB) ∧
    (Voofo.login Voofo.demoBcrypt none (some "pw1") Voofo.aliceDB =
        .error (.serverFault "KeyError: username") ∧
      (Voofo.ApiErr.serverFault "KeyError: username").statusCode = 500 ∧
      Voofo.step Voofo.demoBcrypt Voofo.aliceDB (.auth none (some "pw1"))
        = Voofo.aliceDB) ∧
    (Voofo.login Voofo.demoBcrypt (some "bob") none Voofo.aliceDB =
        .error (.unauthorized "Invalid credentials") ∧
      (Voofo.ApiErr.unauthorized "Invalid credentials").statusCode = 401) ∧
    (Voofo.login Voofo.demoBcrypt (some "alice") none Voofo.aliceDB =
        .error (.serverFault "KeyError: password") ∧
      (Voofo.ApiErr.serverFault "KeyError: password").statusCode = 500 ∧
      Voofo.step Voofo.demoBcrypt Voofo.aliceDB (.auth (some "alice") none)
        = Voofo.aliceDB) ∧
    (Voofo.toggle_like_api none (some "s") (some "t") (some "a") (some "u")
        Voofo.aliceDB =
        .error (.serverFault "KeyError: missing like field") ∧
      (Voofo.ApiErr.serverFault "KeyError: missing like field").statusCode
        = 500 ∧
      Voofo.step Voofo.demoBcrypt Voofo.aliceDB
          (.toggle none (some "s") (some "t") (some "a") (some "u"))
        = Voofo.aliceDB) ∧
    (∃ db', Voofo.toggle_like_api (some 1) (some "s") none none none
        Voofo.likedDB = .ok ("unliked", db')) ∧
    (Voofo.toggle_like_api (some 1) (some "s") none (some "a") (some "u")
        Voofo.aliceDB =
        .error (.serverFault "KeyError: missing like field") ∧
      Voofo.step Voofo.demoBcrypt Voofo.aliceDB
          (.toggle (some 1) (some "s") none (some "a") (some "u"))
        = Voofo.aliceDB) := by
  have h1 := missing_fields_amended_C7 Voofo.demoBcrypt "sal" none (some "pw1")
    "bob" none 1 (some "s") "s" (some "t") (some "a") (some "u") Voofo.aliceDB
  have h2 := missing_fields_amended_C7 Voofo.demoBcrypt "sal" none (some "pw1")
    "alice" (some 1) 1 (some "s") "s" none (some "a") (some "u") Voofo.aliceDB
  have h3 := missing_fields_amended_C7 Voofo.demoBcrypt "sal" none none
    "alice" (some 1) 1 (some "s") "s" none none none Voofo.likedDB
  exact ⟨h1.1 (by decide), h1.2.1, h1.2.2.1 (by decide),
    h2.2.2.2.1 (by decide), h1.2.2.2.2.1 (Or.inl rfl),
    h3.2.2.2.2.2.1 (by decide), h2.2.2.2.2.2.2 (Or.inl rfl) (by decide)⟩
